import Mathlib

/-!
Verification of the Modbus RTU core of the `modbus-gui` repository.

The Python source is shallowly embedded: byte strings become `List Nat`
(each element a byte value 0..255), the serial link is made explicit by
passing the received response bytes as an argument, and each function's
control flow is translated branch по branch.  Machine arithmetic stays in
`Nat` (all involved quantities are masked with `&&& 0xFF` exactly where the
source masks them).
-/

set_option maxRecDepth 100000

namespace ModbusGui

/-- One inner round of the Modbus CRC16 loop
(`modbus_registers.py::_calculate_crc16`): if the low bit is set, shift
right and XOR with the polynomial 0xA001, else just shift right. -/
def crcRound (crc : Nat) : Nat :=
  if crc &&& 0x0001 = 1 then (crc >>> 1) ^^^ 0xA001 else crc >>> 1

/-- `ModbusRegisters._calculate_crc16`: seed 0xFFFF; for each data byte,
XOR it into the running value and then run eight `crcRound` steps. -/
def calculate_crc16 (data : List Nat) : Nat :=
  data.foldl (fun crc byte => (List.range 8).foldl (fun c _ => crcRound c) (crc ^^^ byte))
    0xFFFF

/-- Request frame built by `ModbusRegisters._read_registers_with_function`:
device address, function code, big-endian start address, big-endian count,
then the CRC appended low byte first. -/
def buildReadRequest (deviceAddress functionCode startAddress count : Nat) : List Nat :=
  let request : List Nat :=
    [deviceAddress, functionCode,
     (startAddress >>> 8) &&& 0xFF, startAddress &&& 0xFF,
     (count >>> 8) &&& 0xFF, count &&& 0xFF]
  let crc := calculate_crc16 request
  request ++ [crc &&& 0xFF, (crc >>> 8) &&& 0xFF]

/-- Claim C1: for the byte sequence `01 03 00 00 00 0A` the Modbus CRC16
function returns a value with low byte 0xC5 and high byte 0xCD, so the
encoded read request (CRC appended low byte first) is
`01 03 00 00 00 0A C5 CD`. -/
theorem crc16_known_test_vector :
    calculate_crc16 [0x01, 0x03, 0x00, 0x00, 0x00, 0x0A] &&& 0xFF = 0xC5 ∧
    (calculate_crc16 [0x01, 0x03, 0x00, 0x00, 0x00, 0x0A] >>> 8) &&& 0xFF = 0xCD ∧
    buildReadRequest 0x01 0x03 0x0000 0x000A =
      [0x01, 0x03, 0x00, 0x00, 0x00, 0x0A, 0xC5, 0xCD] := by
  refine ⟨by decide, by decide, by decide⟩

/-! ## Response validation (`modbus_registers.py`)

A received response is a `List Nat` of byte values.  The source reads
`response[-2] | (response[-1] << 8)` as the transmitted CRC and recomputes
the CRC over `response[:-2]`. -/

/-- `response[-2] | (response[-1] << 8)`: the CRC carried by the frame,
low byte first. -/
def responseCrc (response : List Nat) : Nat :=
  response.getD (response.length - 2) 0 |||
    (response.getD (response.length - 1) 0 <<< 8)

/-- CRC recomputed over `response[:-2]`. -/
def calculatedCrc (response : List Nat) : Nat :=
  calculate_crc16 (response.take (response.length - 2))

/-- The CRC comparison `response_crc != calculated_crc` (negated). -/
def crcMatches (response : List Nat) : Bool :=
  responseCrc response == calculatedCrc response

/-- Big-endian 16-bit values read from consecutive byte pairs of a list
(`int(hex_parts[i], 16) << 8 | int(hex_parts[i+1], 16)` walked two bytes at
a time while a full pair remains). -/
def bePairs : List Nat → List Nat
  | a :: b :: rest => ((a <<< 8) ||| b) :: bePairs rest
  | _ => []

/-- The function-0x11 extraction loop of
`_read_registers_with_function`: walk byte pairs (the walk starts at
index 8 of the response, the caller passes `response.drop 8`), append the
big-endian value of each pair, and break as soon as `count` values have
been collected (`if len(registers) >= count: break`, checked after the
append).  `k` is the number of values collected so far. -/
def extractF11Go (count : Nat) : List Nat → Nat → List Nat
  | a :: b :: rest, k =>
    if count ≤ k + 1 then [(a <<< 8) ||| b]
    else ((a <<< 8) ||| b) :: extractF11Go count rest (k + 1)
  | _, _ => []

/-- The normal data-extraction loop of `_read_registers_with_function`:
`for i in range(0, byte_count, 2): if 3 + i + 1 < len(response): append`.
The caller passes `response.drop 3`; the first argument is the remaining
byte budget (`byte_count - i`). -/
def extractDataGo : Nat → List Nat → List Nat
  | 0, _ => []
  | 1, a :: b :: _ => [(a <<< 8) ||| b]
  | 1, _ => []
  | remaining + 2, a :: b :: rest => ((a <<< 8) ||| b) :: extractDataGo remaining rest
  | _ + 2, _ => []

/-- `ModbusRegisters._read_registers_with_function`, from the point where
the response bytes are in hand (the serial exchange is made explicit by
passing the received `response`): `none` models `return None`, `some []`
models the empty list returned on a CRC mismatch. -/
def read_registers_with_function (deviceAddress startAddress count functionCode : Nat)
    (response : List Nat) : Option (List Nat) :=
  if response.isEmpty then none
  else if response.length < 5 then none
  else if crcMatches response = false then some []
  else if response.getD 0 0 ≠ deviceAddress then none
  else if response.getD 1 0 ≠ functionCode then
    (if response.getD 1 0 = 0x11 then
      (let registers := extractF11Go count (response.drop 8) 0
       if registers.isEmpty then none else some registers)
     else none)
  else
    (let byteCount := response.getD 2 0
     if response.length < 5 + byteCount then none
     else some (extractDataGo byteCount (response.drop 3)))

/-- Classification performed by `ModbusRegisters.write_holding_registers`
(function 0x10) and `write_multiple_coils` (function 0x0F) on the response
to a write; the source logs the class and returns `False` for everything
but `ok`. -/
inductive WriteResult where
  | noResponse
  | tooShort
  | crcMismatch
  | addressMismatch
  | exceptionResponse (code : Nat)
  | unexpectedFunction (code : Nat)
  | ok
deriving DecidableEq

/-- The response-validation chain shared verbatim by
`write_holding_registers` and `write_multiple_coils`: no response; fewer
than 8 bytes; CRC mismatch; address mismatch; function byte other than
the expected one (exception branch when bit 0x80 is set, carrying
`response[2]`); otherwise success. -/
def classifyWriteResponse (expectedFunction deviceAddress : Nat) (response : List Nat) :
    WriteResult :=
  if response.isEmpty then WriteResult.noResponse
  else if response.length < 8 then WriteResult.tooShort
  else if crcMatches response = false then WriteResult.crcMismatch
  else if response.getD 0 0 ≠ deviceAddress then WriteResult.addressMismatch
  else if response.getD 1 0 ≠ expectedFunction then
    (if response.getD 1 0 &&& 0x80 ≠ 0 then
      WriteResult.exceptionResponse (response.getD 2 0)
     else WriteResult.unexpectedFunction (response.getD 1 0))
  else WriteResult.ok

/-- The boolean actually returned by the write functions: `True` exactly on
the `ok` classification. -/
def writeSucceeded (expectedFunction deviceAddress : Nat) (response : List Nat) : Bool :=
  match classifyWriteResponse expectedFunction deviceAddress response with
  | WriteResult.ok => true
  | _ => false

/-- Request frame of `write_holding_registers`: address, 0x10, big-endian
start and count, byte count, big-endian register values, CRC low byte
first. -/
def buildWriteRequest (deviceAddress startAddress : Nat) (values : List Nat) : List Nat :=
  let count := values.length
  let byteCount := count * 2
  let request : List Nat :=
    [deviceAddress, 0x10,
     (startAddress >>> 8) &&& 0xFF, startAddress &&& 0xFF,
     (count >>> 8) &&& 0xFF, count &&& 0xFF, byteCount] ++
    values.flatMap (fun v => [(v >>> 8) &&& 0xFF, v &&& 0xFF])
  let crc := calculate_crc16 request
  request ++ [crc &&& 0xFF, (crc >>> 8) &&& 0xFF]

/-- Coil packing of `write_multiple_coils`: bit `i % 8` of byte `i / 8` is
set when coil `i` is true. -/
def packCoils (values : List Bool) : List Nat :=
  let byteCount := (values.length + 7) / 8
  (List.range byteCount).map (fun byteIndex =>
    (List.range 8).foldl
      (fun acc bitIndex =>
        if values.getD (byteIndex * 8 + bitIndex) false then acc ||| (1 <<< bitIndex)
        else acc)
      0)

/-- Request frame of `write_multiple_coils`: address, 0x0F, big-endian
start and count, byte count, packed coil bytes, CRC low byte first. -/
def buildCoilsRequest (deviceAddress startAddress : Nat) (values : List Bool) : List Nat :=
  let count := values.length
  let byteCount := (count + 7) / 8
  let request : List Nat :=
    [deviceAddress, 0x0F,
     (startAddress >>> 8) &&& 0xFF, startAddress &&& 0xFF,
     (count >>> 8) &&& 0xFF, count &&& 0xFF, byteCount] ++ packCoils values
  let crc := calculate_crc16 request
  request ++ [crc &&& 0xFF, (crc >>> 8) &&& 0xFF]

/-- `ModbusRegisters.write_holding_registers` with the serial exchange made
explicit: the first component is the frame put on the wire (`none` when
nothing is transmitted), the second the returned boolean.  The source
returns `False` before building any frame when `values` is empty. -/
def write_holding_registers (deviceAddress startAddress : Nat) (values : List Nat)
    (response : List Nat) : Option (List Nat) × Bool :=
  if values.isEmpty then (none, false)
  else (some (buildWriteRequest deviceAddress startAddress values),
        writeSucceeded 0x10 deviceAddress response)

/-- `ModbusRegisters.write_multiple_coils`, same conventions as
`write_holding_registers`. -/
def write_multiple_coils (deviceAddress startAddress : Nat) (values : List Bool)
    (response : List Nat) : Option (List Nat) × Bool :=
  if values.isEmpty then (none, false)
  else (some (buildCoilsRequest deviceAddress startAddress values),
        writeSucceeded 0x0F deviceAddress response)

/-- Claim C10: calling `write_holding_registers` or `write_multiple_coils`
with an empty values list returns `False` immediately and transmits no
bytes: no request frame is built or written. -/
theorem empty_values_write_nothing (deviceAddress startAddress : Nat) (response : List Nat) :
    write_holding_registers deviceAddress startAddress [] response = (none, false) ∧
    write_multiple_coils deviceAddress startAddress [] response = (none, false) := by
  exact ⟨rfl, rfl⟩

/-! ## Error-handling policy of the read/write transactions -/

theorem classifyWriteResponse_eq_ok (expectedFunction deviceAddress : Nat)
    (response : List Nat)
    (h : classifyWriteResponse expectedFunction deviceAddress response = WriteResult.ok) :
    crcMatches response = true ∧ response.getD 0 0 = deviceAddress ∧
      response.getD 1 0 = expectedFunction ∧ 8 ≤ response.length := by
  by_cases he : response.isEmpty = true
  · simp [classifyWriteResponse, he] at h
  · by_cases hl : response.length < 8
    · simp [classifyWriteResponse, he, hl] at h
    · by_cases hc : crcMatches response = false
      · simp [classifyWriteResponse, he, hl, hc] at h
      · by_cases ha : response.getD 0 0 = deviceAddress
        · by_cases hf : response.getD 1 0 = expectedFunction
          · refine ⟨?_, ha, hf, by omega⟩
            revert hc
            cases crcMatches response <;> simp
          · by_cases hb : response.getD 1 0 &&& 0x80 ≠ 0
            · simp only [List.getD_eq_getElem?_getD] at ha hf hb
              simp [classifyWriteResponse, he, hl, hc, ha, hf, hb] at h
            · simp only [List.getD_eq_getElem?_getD] at ha hf hb
              simp [classifyWriteResponse, he, hl, hc, ha, hf, hb] at h
        · simp only [List.getD_eq_getElem?_getD] at ha
          simp [classifyWriteResponse, he, hl, hc, ha] at h

theorem writeSucceeded_eq_true (expectedFunction deviceAddress : Nat) (response : List Nat) :
    writeSucceeded expectedFunction deviceAddress response = true ↔
      classifyWriteResponse expectedFunction deviceAddress response = WriteResult.ok := by
  unfold writeSucceeded
  cases h : classifyWriteResponse expectedFunction deviceAddress response <;> simp

/-- Claim C6: a register-read response that reaches the CRC comparison
(at least 5 bytes, per the decode order short-response comes first) and
fails it yields the empty register list `some []`, not a failure value; a
write response failing the CRC check always yields `False`; and a write
never returns `True` unless its response passed the CRC, device-address
and function-code checks. -/
theorem crc_error_propagation_policy :
    (∀ deviceAddress startAddress count functionCode response,
        5 ≤ List.length response → crcMatches response = false →
        read_registers_with_function deviceAddress startAddress count functionCode response =
          some []) ∧
    (∀ deviceAddress startAddress values response, crcMatches response = false →
        (write_holding_registers deviceAddress startAddress values response).2 = false) ∧
    (∀ deviceAddress startAddress values response,
        (write_holding_registers deviceAddress startAddress values response).2 = true →
        crcMatches response = true ∧ response.getD 0 0 = deviceAddress ∧
          response.getD 1 0 = 0x10) := by
  refine ⟨?_, ?_, ?_⟩
  · intro dA sA c fc resp hlen hcrc
    have h0 : resp.isEmpty = false := by
      cases resp with
      | nil => simp at hlen
      | cons a t => rfl
    have h1 : ¬ resp.length < 5 := by omega
    simp [read_registers_with_function, h0, h1, hcrc]
  · intro dA sA vals resp hcrc
    unfold write_holding_registers
    by_cases hv : vals.isEmpty = true
    · simp [hv]
    · rw [if_neg hv]
      show writeSucceeded 0x10 dA resp = false
      cases hw : writeSucceeded 0x10 dA resp
      · rfl
      · exfalso
        have hok := (writeSucceeded_eq_true 0x10 dA resp).1 hw
        have hmatch := (classifyWriteResponse_eq_ok 0x10 dA resp hok).1
        rw [hmatch] at hcrc
        exact Bool.noConfusion hcrc
  · intro dA sA vals resp htrue
    unfold write_holding_registers at htrue
    by_cases hv : vals.isEmpty = true
    · rw [if_pos hv] at htrue
      exact absurd htrue (by simp)
    · rw [if_neg hv] at htrue
      have hok := (writeSucceeded_eq_true 0x10 dA resp).1 htrue
      have hinv := classifyWriteResponse_eq_ok 0x10 dA resp hok
      exact ⟨hinv.1, hinv.2.1, hinv.2.2.1⟩

theorem crc_error_propagation_policy_witness :
    read_registers_with_function 1 0 1 3 [1, 3, 2, 0, 0, 9, 9] = some [] ∧
    (write_holding_registers 1 0 [5] [1, 16, 0, 0, 0, 1, 9, 9]).2 = false ∧
    (crcMatches [0x01, 0x10, 0x00, 0x00, 0x00, 0x01, 0x01, 0xC9] = true ∧
      List.getD [0x01, 0x10, 0x00, 0x00, 0x00, 0x01, 0x01, 0xC9] 0 0 = 1 ∧
      List.getD [0x01, 0x10, 0x00, 0x00, 0x00, 0x01, 0x01, 0xC9] 1 0 = 0x10) := by
  refine ⟨?_, ?_, ?_⟩
  · exact crc_error_propagation_policy.1 1 0 1 3 _ (by decide) (by decide)
  · exact crc_error_propagation_policy.2.1 1 0 [5] _ (by decide)
  · exact crc_error_propagation_policy.2.2 1 0 [5] _ (by decide)

/-- Claim C5, counterexample: the canonical five-byte Modbus exception
frame `01 90 02` plus its CRC (`CD C1`, low byte first) has a valid CRC,
a matching device address, function byte 0x90 and third byte 0x02, yet the
write path rejects it as too short (it demands at least 8 bytes) and never
reaches the exception decoding, so it is not classified as exception
code 2. -/
theorem exception_frame_counterexample :
    crcMatches [0x01, 0x90, 0x02, 0xCD, 0xC1] = true ∧
    List.getD [0x01, 0x90, 0x02, 0xCD, 0xC1] 0 0 = 0x01 ∧
    List.getD [0x01, 0x90, 0x02, 0xCD, 0xC1] 1 0 = 0x90 ∧
    List.getD [0x01, 0x90, 0x02, 0xCD, 0xC1] 2 0 = 0x02 ∧
    classifyWriteResponse 0x10 0x01 [0x01, 0x90, 0x02, 0xCD, 0xC1] = WriteResult.tooShort ∧
    ¬ classifyWriteResponse 0x10 0x01 [0x01, 0x90, 0x02, 0xCD, 0xC1] =
        WriteResult.exceptionResponse 2 := by
  decide

/-- Claim C5 (amended: the response must be at least 8 bytes long, the
write path's minimum length): every CRC-valid, address-matching response
of at least 8 bytes whose function byte is 0x90 and whose third byte is
0x02 is classified as Modbus exception code 2 and makes
`write_holding_registers` return failure. -/
theorem write_exception_code_two (deviceAddress : Nat) (response : List Nat)
    (hlen : 8 ≤ response.length) (hcrc : crcMatches response = true)
    (haddr : response.getD 0 0 = deviceAddress)
    (hfunc : response.getD 1 0 = 0x90) (hexc : response.getD 2 0 = 0x02) :
    classifyWriteResponse 0x10 deviceAddress response = WriteResult.exceptionResponse 2 ∧
    ∀ startAddress values,
      (write_holding_registers deviceAddress startAddress values response).2 = false := by
  have h0 : response.isEmpty = false := by
    cases response with
    | nil => simp at hlen
    | cons a t => rfl
  have h1 : ¬ response.length < 8 := by omega
  have hcl : classifyWriteResponse 0x10 deviceAddress response =
      WriteResult.exceptionResponse 2 := by
    simp only [List.getD_eq_getElem?_getD] at haddr hfunc hexc
    simp [classifyWriteResponse, h0, h1, hcrc, haddr, hfunc, hexc]
  refine ⟨hcl, ?_⟩
  intro sA vals
  unfold write_holding_registers
  by_cases hv : vals.isEmpty = true
  · simp [hv]
  · simp [hv, writeSucceeded, hcl]

theorem write_exception_code_two_witness :
    classifyWriteResponse 0x10 0x01 [0x01, 0x90, 0x02, 0x00, 0x00, 0x00, 0xC0, 0x6F] =
      WriteResult.exceptionResponse 2 ∧
    (write_holding_registers 0x01 0x0000 [0x0001]
        [0x01, 0x90, 0x02, 0x00, 0x00, 0x00, 0xC0, 0x6F]).2 = false := by
  have h := write_exception_code_two 0x01 [0x01, 0x90, 0x02, 0x00, 0x00, 0x00, 0xC0, 0x6F]
    (by decide) (by decide) (by decide) (by decide) (by decide)
  exact ⟨h.1, h.2 0x0000 [0x0001]⟩

/-! ## Function-0x11 fallback extraction (claim C7) -/

theorem extractF11Go_eq_take :
    ∀ (fuel : Nat) (count : Nat) (l : List Nat) (k : Nat), l.length ≤ fuel → k < count →
      extractF11Go count l k = (bePairs l).take (count - k) := by
  intro fuel
  induction fuel with
  | zero =>
    intro count l k hl hk
    have : l = [] := List.eq_nil_of_length_eq_zero (by omega)
    subst this
    simp [extractF11Go, bePairs]
  | succ fuel ih =>
    intro count l k hl hk
    match l with
    | [] => simp [extractF11Go, bePairs]
    | [a] => simp [extractF11Go, bePairs]
    | a :: b :: rest =>
      by_cases hb : count ≤ k + 1
      · have h1 : count - k = 1 := by omega
        simp [extractF11Go, bePairs, hb, h1]
      · have h1 : count - k = (count - (k + 1)) + 1 := by omega
        rw [h1]
        simp only [extractF11Go, bePairs, if_neg hb, List.take_succ_cons]
        have hrest : rest.length ≤ fuel := by
          simp only [List.length_cons] at hl
          omega
        rw [ih count rest (k + 1) hrest (by omega)]

/-- Claim C7: a register read issued with function code 0x03 or 0x04 whose
CRC-valid, address-matching response carries function byte 0x11 extracts
big-endian 16-bit pairs starting at byte offset 8 of the response, stops
once the requested count (at least 1) is reached, and returns that list;
when no pair can be extracted it fails with `none`. -/
theorem identification_fallback_read (deviceAddress startAddress count functionCode : Nat)
    (response : List Nat) (hfc : functionCode = 0x03 ∨ functionCode = 0x04)
    (hcount : 1 ≤ count) (hcrc : crcMatches response = true)
    (haddr : response.getD 0 0 = deviceAddress)
    (hfunc : response.getD 1 0 = 0x11) :
    read_registers_with_function deviceAddress startAddress count functionCode response =
      (if (bePairs (response.drop 8)).take count = [] then none
       else some ((bePairs (response.drop 8)).take count)) := by
  have hext : extractF11Go count (response.drop 8) 0 =
      (bePairs (response.drop 8)).take count := by
    have h := extractF11Go_eq_take (response.drop 8).length count (response.drop 8) 0
      (Nat.le_refl _) (by omega)
    simpa using h
  by_cases h0 : response.isEmpty = true
  · rw [List.isEmpty_iff] at h0
    subst h0
    simp at hfunc
  · by_cases h5 : response.length < 5
    · have hdrop : response.drop 8 = [] := by
        apply List.eq_nil_of_length_eq_zero
        simp only [List.length_drop]
        omega
      simp [read_registers_with_function, h0, h5, hdrop, bePairs]
    · simp only [List.getD_eq_getElem?_getD] at haddr hfunc
      have hne : ¬ (17 : Nat) = functionCode := by
        rcases hfc with h | h <;> rw [h] <;> decide
      have hc0 : ¬ count = 0 := by omega
      simp [read_registers_with_function, h0, h5, hcrc, haddr, hfunc, hne, hext, hc0]

theorem identification_fallback_read_witness :
    read_registers_with_function 0x01 0x0000 2 0x03
      [0x01, 0x11, 0, 0, 0, 0, 0, 0, 0, 0, 0, 0, 0xC9, 0xFD] = some [0, 0] := by
  have h := identification_fallback_read 0x01 0x0000 2 0x03
    [0x01, 0x11, 0, 0, 0, 0, 0, 0, 0, 0, 0, 0, 0xC9, 0xFD]
    (Or.inl rfl) (by decide) (by decide) (by decide) (by decide)
  rw [h]
  decide

/-! ## Discovery scan (`auto_search_worker.py`)

`AutoSearchWorker._sequential_search` walks addresses 1..200 (outer loop)
and for each address the fixed speed list (inner loop).  The probe outcome
environment `env : address → baudrate → Bool` stands for
`scanner.scan_single`, and the cooperative stop flag is modelled as a
function `stop : Nat → Bool` of the number of probes issued so far — the
flag is written once by `stop()` and only ever goes from `false` to
`true`, which the theorems take as a monotonicity hypothesis.  The trace
component lists every `(address, baudrate)` pair actually probed. -/

/-- `AutoSearchWorker.SEARCH_BAUDRATES` (also the literal list in
`quick_auto_search`). -/
def SEARCH_BAUDRATES : List Nat := [115200, 57600, 38400, 19200, 9600]

/-- How a scan run ends: `device_found`/`search_complete(True, …)`,
`search_complete(False, "stopped by user")`, or
`search_complete(False, "not found")`. -/
inductive SearchOutcome where
  | found (address baudrate : Nat)
  | stopped
  | notFound
deriving DecidableEq

/-- Inner loop of `_sequential_search`: for one address, try each
baudrate; the stop flag is sampled before every probe.  Returns the probe
trace, the updated probe count, and `some` outcome when the loop exited
early (`none` when all speeds were exhausted without an answer). -/
def scanBauds (env : Nat → Nat → Bool) (stop : Nat → Bool) (address : Nat) :
    List Nat → Nat → List (Nat × Nat) × Nat × Option SearchOutcome
  | [], k => ([], k, none)
  | b :: bs, k =>
    if stop k then ([], k, some SearchOutcome.stopped)
    else if env address b then
      ([(address, b)], k + 1, some (SearchOutcome.found address b))
    else
      (let r := scanBauds env stop address bs (k + 1)
       ((address, b) :: r.1, r.2.1, r.2.2))

/-- Outer loop of `_sequential_search`: the stop flag is also sampled once
per address before entering the inner loop. -/
def scanAddresses (env : Nat → Nat → Bool) (stop : Nat → Bool) :
    List Nat → Nat → List (Nat × Nat) × SearchOutcome
  | [], _ => ([], SearchOutcome.notFound)
  | a :: rest, k =>
    if stop k then ([], SearchOutcome.stopped)
    else
      match scanBauds env stop a SEARCH_BAUDRATES k with
      | (t, _, some out) => (t, out)
      | (t, k2, none) =>
        (let r := scanAddresses env stop rest k2
         (t ++ r.1, r.2))

/-- `AutoSearchWorker._sequential_search` over addresses
`range(self.MIN_ADDRESS, self.MAX_ADDRESS + 1)` = 1..200. -/
def sequentialSearchStop (env : Nat → Nat → Bool) (stop : Nat → Bool) :
    List (Nat × Nat) × SearchOutcome :=
  scanAddresses env stop (List.range' 1 200) 0

/-- The same loop with the stop flag never raised (also the literal loop
of `quick_auto_search`, which has no stop flag at all). -/
def sequentialSearch (env : Nat → Nat → Bool) : List (Nat × Nat) × SearchOutcome :=
  sequentialSearchStop env (fun _ => false)

/-- Specification-side probe order: address 1 at each of the five speeds,
then address 2, … through address 200. -/
def searchOrder : List (Nat × Nat) :=
  (List.range' 1 200).flatMap (fun a => SEARCH_BAUDRATES.map (fun b => (a, b)))

/-- Specification-side trace: the prefix of a probe list up to and
including its first successful probe (the whole list when none succeeds). -/
def probesUntilSuccess (env : Nat → Nat → Bool) : List (Nat × Nat) → List (Nat × Nat)
  | [] => []
  | p :: ps => if env p.1 p.2 then [p] else p :: probesUntilSuccess env ps

theorem probesUntilSuccess_of_none (env : Nat → Nat → Bool) :
    ∀ l : List (Nat × Nat), l.find? (fun q => env q.1 q.2) = none →
      probesUntilSuccess env l = l := by
  intro l
  induction l with
  | nil => intro h; rfl
  | cons q qs ih =>
    intro h
    by_cases hq : env q.1 q.2
    · rw [List.find?_cons_of_pos _ (by simpa using hq)] at h
      exact absurd h (by simp)
    · rw [List.find?_cons_of_neg _ (by simpa using hq)] at h
      simp [probesUntilSuccess, hq, ih h]

theorem probesUntilSuccess_append_none (env : Nat → Nat → Bool) (l2 : List (Nat × Nat)) :
    ∀ l1 : List (Nat × Nat), l1.find? (fun q => env q.1 q.2) = none →
      probesUntilSuccess env (l1 ++ l2) = l1 ++ probesUntilSuccess env l2 := by
  intro l1
  induction l1 with
  | nil => intro h; simp
  | cons q qs ih =>
    intro h
    by_cases hq : env q.1 q.2
    · rw [List.find?_cons_of_pos _ (by simpa using hq)] at h
      exact absurd h (by simp)
    · rw [List.find?_cons_of_neg _ (by simpa using hq)] at h
      simp [probesUntilSuccess, hq, ih h]

theorem probesUntilSuccess_append_some (env : Nat → Nat → Bool) (l2 : List (Nat × Nat))
    (q0 : Nat × Nat) :
    ∀ l1 : List (Nat × Nat), l1.find? (fun q => env q.1 q.2) = some q0 →
      probesUntilSuccess env (l1 ++ l2) = probesUntilSuccess env l1 := by
  intro l1
  induction l1 with
  | nil => intro h; simp at h
  | cons q qs ih =>
    intro h
    by_cases hq : env q.1 q.2
    · simp [probesUntilSuccess, hq]
    · rw [List.find?_cons_of_neg _ (by simpa using hq)] at h
      simp [probesUntilSuccess, hq, ih h]

theorem scanBauds_noStop (env : Nat → Nat → Bool) (address : Nat) :
    ∀ (bs : List Nat) (k : Nat),
      scanBauds env (fun _ => false) address bs k =
        (probesUntilSuccess env (bs.map (fun b => (address, b))),
         k + (probesUntilSuccess env (bs.map (fun b => (address, b)))).length,
         ((bs.map (fun b => (address, b))).find? (fun q => env q.1 q.2)).map
           (fun q => SearchOutcome.found q.1 q.2)) := by
  intro bs
  induction bs with
  | nil => intro k; simp [scanBauds, probesUntilSuccess]
  | cons b bs ih =>
    intro k
    by_cases hb : env address b
    · simp [scanBauds, probesUntilSuccess, hb]
    · simp [scanBauds, probesUntilSuccess, hb, ih (k + 1)]
      omega

theorem scanAddresses_noStop (env : Nat → Nat → Bool) :
    ∀ (as : List Nat) (k : Nat),
      scanAddresses env (fun _ => false) as k =
        (probesUntilSuccess env
           (as.flatMap (fun a => SEARCH_BAUDRATES.map (fun b => (a, b)))),
         match (as.flatMap (fun a => SEARCH_BAUDRATES.map (fun b => (a, b)))).find?
             (fun q => env q.1 q.2) with
         | some q => SearchOutcome.found q.1 q.2
         | none => SearchOutcome.notFound) := by
  intro as
  induction as with
  | nil => intro k; simp [scanAddresses, probesUntilSuccess]
  | cons a rest ih =>
    intro k
    have hsb := scanBauds_noStop env a SEARCH_BAUDRATES k
    cases hf : (SEARCH_BAUDRATES.map (fun b => (a, b))).find? (fun q => env q.1 q.2) with
    | some q =>
      rw [hf] at hsb
      have happ := probesUntilSuccess_append_some env
        (rest.flatMap (fun x => SEARCH_BAUDRATES.map (fun b => (x, b)))) q
        (SEARCH_BAUDRATES.map (fun b => (a, b))) hf
      simp [List.flatMap_cons, scanAddresses, hsb, happ, List.find?_append, hf]
    | none =>
      rw [hf] at hsb
      have hli := probesUntilSuccess_of_none env (SEARCH_BAUDRATES.map (fun b => (a, b))) hf
      have happ := probesUntilSuccess_append_none env
        (rest.flatMap (fun x => SEARCH_BAUDRATES.map (fun b => (x, b))))
        (SEARCH_BAUDRATES.map (fun b => (a, b))) hf
      have hih := ih (k + SEARCH_BAUDRATES.length)
      simp [List.flatMap_cons, scanAddresses, hsb, happ, hli, List.find?_append, hf]
      constructor
      · rw [hih]
      · rw [hih]
        simp

/-- Claim C2: for every probe-outcome environment the scan probes exactly
in the order address 1 at the five speeds 115200…9600, then address 2, …
through address 200 (the trace is the prefix of `searchOrder` up to and
including the first success), it reports the first successful pair, and it
reports not-found only after probing every combination. -/
theorem sequential_search_order (env : Nat → Nat → Bool) :
    (sequentialSearch env).1 = probesUntilSuccess env searchOrder ∧
    (sequentialSearch env).2 =
      (match searchOrder.find? (fun q => env q.1 q.2) with
       | some q => SearchOutcome.found q.1 q.2
       | none => SearchOutcome.notFound) ∧
    (searchOrder.find? (fun q => env q.1 q.2) = none →
      (sequentialSearch env).1 = searchOrder) := by
  have h := scanAddresses_noStop env (List.range' 1 200) 0
  refine ⟨?_, ?_, ?_⟩
  · show (scanAddresses env (fun _ => false) (List.range' 1 200) 0).1 = _
    rw [h]
    rfl
  · show (scanAddresses env (fun _ => false) (List.range' 1 200) 0).2 = _
    rw [h]
    rfl
  · intro hnone
    show (scanAddresses env (fun _ => false) (List.range' 1 200) 0).1 = _
    rw [h]
    exact probesUntilSuccess_of_none env searchOrder hnone

theorem sequential_search_order_witness :
    (sequentialSearch (fun _ _ => false)).1 = searchOrder := by
  apply (sequential_search_order (fun _ _ => false)).2.2
  decide

/-! ## Cancellation of the discovery scan (claim C3) -/

theorem scanBauds_count (env : Nat → Nat → Bool) (stop : Nat → Bool) (address : Nat) :
    ∀ (bs : List Nat) (k : Nat),
      (scanBauds env stop address bs k).2.1 =
        k + (scanBauds env stop address bs k).1.length := by
  intro bs
  induction bs with
  | nil => intro k; simp [scanBauds]
  | cons b bs ih =>
    intro k
    by_cases hs : stop k
    · simp [scanBauds, hs]
    · by_cases hb : env address b
      · simp [scanBauds, hs, hb]
      · simp [scanBauds, hs, hb, ih (k + 1)]
        omega

theorem scanBauds_none_length (env : Nat → Nat → Bool) (stop : Nat → Bool) (address : Nat) :
    ∀ (bs : List Nat) (k : Nat),
      (scanBauds env stop address bs k).2.2 = none →
      (scanBauds env stop address bs k).1.length = bs.length := by
  intro bs
  induction bs with
  | nil => intro k _; simp [scanBauds]
  | cons b bs ih =>
    intro k h
    by_cases hs : stop k
    · simp [scanBauds, hs] at h
    · by_cases hb : env address b
      · simp [scanBauds, hs, hb] at h
      · simp [scanBauds, hs, hb] at h ⊢
        exact ih (k + 1) h

theorem scanBauds_not_notFound (env : Nat → Nat → Bool) (stop : Nat → Bool) (address : Nat) :
    ∀ (bs : List Nat) (k : Nat),
      (scanBauds env stop address bs k).2.2 ≠ some SearchOutcome.notFound := by
  intro bs
  induction bs with
  | nil => intro k; simp [scanBauds]
  | cons b bs ih =>
    intro k
    by_cases hs : stop k
    · simp [scanBauds, hs]
    · by_cases hb : env address b
      · simp [scanBauds, hs, hb]
      · simp [scanBauds, hs, hb]
        exact ih (k + 1)

theorem scanBauds_stop_bound (env : Nat → Nat → Bool) (stop : Nat → Bool) (address : Nat)
    (hmono : ∀ i j, i ≤ j → stop i = true → stop j = true) :
    ∀ (bs : List Nat) (k m : Nat), stop m = true →
      (scanBauds env stop address bs k).1 = [] ∨
      k + (scanBauds env stop address bs k).1.length ≤ m := by
  intro bs
  induction bs with
  | nil => intro k m _; left; simp [scanBauds]
  | cons b bs ih =>
    intro k m hm
    by_cases hs : stop k
    · left; simp [scanBauds, hs]
    · have hkm : k < m := by
        by_contra hc
        exact absurd (hmono m k (by omega) hm) (by simp [hs])
      by_cases hb : env address b
      · right; simp [scanBauds, hs, hb]; omega
      · rcases ih (k + 1) m hm with h | h
        · right
          simp [scanBauds, hs, hb, h]
          omega
        · right
          simp [scanBauds, hs, hb]
          omega

theorem scanAddresses_notFound_length (env : Nat → Nat → Bool) (stop : Nat → Bool) :
    ∀ (as : List Nat) (k : Nat),
      (scanAddresses env stop as k).2 = SearchOutcome.notFound →
      (scanAddresses env stop as k).1.length = 5 * as.length := by
  intro as
  induction as with
  | nil => intro k _; simp [scanAddresses]
  | cons a rest ih =>
    intro k h
    by_cases hs : stop k
    · simp [scanAddresses, hs] at h
    · rcases hsb : scanBauds env stop a SEARCH_BAUDRATES k with ⟨t, k2, r⟩
      cases r with
      | some out =>
        rw [scanAddresses, if_neg (by simp [hs]), hsb] at h
        simp at h
        subst h
        have := scanBauds_not_notFound env stop a SEARCH_BAUDRATES k
        rw [hsb] at this
        simp at this
      | none =>
        have ht : t.length = SEARCH_BAUDRATES.length := by
          have := scanBauds_none_length env stop a SEARCH_BAUDRATES k
          rw [hsb] at this
          simpa using this rfl
        rw [scanAddresses, if_neg (by simp [hs]), hsb] at h ⊢
        simp at h ⊢
        rw [ih k2 h, ht]
        simp [SEARCH_BAUDRATES]
        ring

theorem scanAddresses_stop_bound (env : Nat → Nat → Bool) (stop : Nat → Bool)
    (hmono : ∀ i j, i ≤ j → stop i = true → stop j = true) :
    ∀ (as : List Nat) (k m : Nat), stop m = true →
      (scanAddresses env stop as k).1 = [] ∨
      k + (scanAddresses env stop as k).1.length ≤ m := by
  intro as
  induction as with
  | nil => intro k m _; left; simp [scanAddresses]
  | cons a rest ih =>
    intro k m hm
    by_cases hs : stop k
    · left; simp [scanAddresses, hs]
    · rcases hsb : scanBauds env stop a SEARCH_BAUDRATES k with ⟨t, k2, r⟩
      have hbound := scanBauds_stop_bound env stop a hmono SEARCH_BAUDRATES k m hm
      rw [hsb] at hbound
      simp at hbound
      cases r with
      | some out =>
        rw [scanAddresses, if_neg (by simp [hs]), hsb]
        simpa using hbound
      | none =>
        have ht : t.length = SEARCH_BAUDRATES.length := by
          have := scanBauds_none_length env stop a SEARCH_BAUDRATES k
          rw [hsb] at this
          simpa using this rfl
        have hk2 : k2 = k + t.length := by
          have := scanBauds_count env stop a SEARCH_BAUDRATES k
          rw [hsb] at this
          simpa using this
        rcases hbound with h | h
        · rw [h] at ht
          simp [SEARCH_BAUDRATES] at ht
        · rcases ih k2 m hm with h2 | h2
          · right
            rw [scanAddresses, if_neg (by simp [hs]), hsb]
            simp [h2]
            omega
          · right
            rw [scanAddresses, if_neg (by simp [hs]), hsb]
            simp
            omega

/-- Claim C3: the stop flag is sampled before every single probe, so once
it is raised at probe count `n` no further probe is issued (the trace
never exceeds `n` pairs), and unless the flag was raised only after the
whole 1000-pair space had been probed the scan ends in the cancelled
outcome or in a prior success — never in the exhausted not-found report. -/
theorem stop_flag_cancels_search (env : Nat → Nat → Bool) (stop : Nat → Bool)
    (hmono : ∀ i j, i ≤ j → stop i = true → stop j = true)
    (n : Nat) (hstop : stop n = true) :
    (sequentialSearchStop env stop).1.length ≤ n ∧
    (n < 1000 →
      (sequentialSearchStop env stop).2 = SearchOutcome.stopped ∨
      ∃ a b, (sequentialSearchStop env stop).2 = SearchOutcome.found a b) := by
  have hlen : (sequentialSearchStop env stop).1.length ≤ n := by
    rcases scanAddresses_stop_bound env stop hmono (List.range' 1 200) 0 n hstop with h | h
    · show (scanAddresses env stop (List.range' 1 200) 0).1.length ≤ n
      rw [h]
      simp
    · have : (scanAddresses env stop (List.range' 1 200) 0).1.length ≤ n := by omega
      exact this
  refine ⟨hlen, ?_⟩
  intro hn
  cases hout : (sequentialSearchStop env stop).2 with
  | stopped => exact Or.inl rfl
  | found a b => exact Or.inr ⟨a, b, rfl⟩
  | notFound =>
    exfalso
    have hlen1000 := scanAddresses_notFound_length env stop (List.range' 1 200) 0 hout
    rw [List.length_range'] at hlen1000
    have : (sequentialSearchStop env stop).1.length = 1000 := by
      show (scanAddresses env stop (List.range' 1 200) 0).1.length = 1000
      rw [hlen1000]
    omega

theorem stop_flag_cancels_search_witness :
    (sequentialSearchStop (fun _ _ => false) (fun k => decide (5 ≤ k))).1.length ≤ 5 ∧
    (5 < 1000 →
      (sequentialSearchStop (fun _ _ => false) (fun k => decide (5 ≤ k))).2 =
          SearchOutcome.stopped ∨
      ∃ a b, (sequentialSearchStop (fun _ _ => false) (fun k => decide (5 ≤ k))).2 =
          SearchOutcome.found a b) := by
  exact stop_flag_cancels_search (fun _ _ => false) (fun k => decide (5 ≤ k))
    (fun i j hij hi => by
      simp only [decide_eq_true_eq] at hi ⊢
      omega)
    5 (by decide)

/-! ## Connection health monitor (`wizard/connection_monitor.py`)

One loop iteration of `ConnectionMonitor.run` observes one probe outcome:
the worker reports not-connected (`workerDown`), `read_device_info`
returns a truthy value (`success`), returns a falsy value (`readFailed`),
or raises (`exn`).  The step function returns the emitted signals of that
iteration. -/

inductive Probe where
  | workerDown
  | success
  | readFailed
  | exn
deriving DecidableEq

inductive MonitorSignal where
  | lost
  | reconnected
deriving DecidableEq

structure MonitorState where
  is_connected : Bool
  consecutive_failures : Nat
  max_failures : Nat
deriving DecidableEq

/-- `ConnectionMonitor.__init__` followed by the reset at the top of
`run`: connected, zero failures, threshold 2 in fast mode and 3
otherwise. -/
def monitorInit (fast_mode : Bool) : MonitorState :=
  { is_connected := true, consecutive_failures := 0,
    max_failures := if fast_mode then 2 else 3 }

/-- One iteration of the `while` loop of `ConnectionMonitor.run`.  The
`workerDown` and `exn` branches guard the `device_disconnected` emit with
`if self.is_connected`; the `readFailed` branch does not. -/
def monitorStep (st : MonitorState) : Probe → MonitorState × List MonitorSignal
  | Probe.workerDown =>
    (let f := st.consecutive_failures + 1
     if st.max_failures ≤ f then
       (if st.is_connected then
         ({ st with is_connected := false, consecutive_failures := f },
          [MonitorSignal.lost])
        else ({ st with consecutive_failures := f }, []))
     else ({ st with consecutive_failures := f }, []))
  | Probe.success =>
    if st.is_connected then ({ st with consecutive_failures := 0 }, [])
    else ({ st with is_connected := true, consecutive_failures := 0 },
          [MonitorSignal.reconnected])
  | Probe.readFailed =>
    (let f := st.consecutive_failures + 1
     if st.max_failures ≤ f then
       ({ st with is_connected := false, consecutive_failures := f },
        [MonitorSignal.lost])
     else ({ st with consecutive_failures := f }, []))
  | Probe.exn =>
    (let f := st.consecutive_failures + 1
     if st.max_failures ≤ f then
       (if st.is_connected then
         ({ st with is_connected := false, consecutive_failures := f },
          [MonitorSignal.lost])
        else ({ st with consecutive_failures := f }, []))
     else ({ st with consecutive_failures := f }, []))

/-- Run the monitor loop over a sequence of probe outcomes, collecting all
emitted signals in order. -/
def monitorRun (st : MonitorState) : List Probe → MonitorState × List MonitorSignal
  | [] => (st, [])
  | p :: ps =>
    (let r := monitorStep st p
     let rest := monitorRun r.1 ps
     (rest.1, r.2 ++ rest.2))

/-- Claim C4 (code bug, evaluated at the failing input): the thresholds
are 2 (fast) and 3 (normal) and one failure followed by one success never
emits Lost, but three consecutive `read_device_info` failures in fast mode
emit `device_disconnected` twice — once per failure at or past the
threshold — because the `readFailed` branch of `run` lacks the
`is_connected` guard the other two failure branches have.  The claim's
"exactly one Lost transition" is therefore violated by the code. -/
theorem monitor_duplicate_lost_signals :
    (monitorInit true).max_failures = 2 ∧
    (monitorInit false).max_failures = 3 ∧
    (monitorRun (monitorInit true) [Probe.readFailed, Probe.success]).2 = [] ∧
    (monitorRun (monitorInit false) [Probe.readFailed, Probe.success]).2 = [] ∧
    (monitorRun (monitorInit true) [Probe.workerDown, Probe.success]).2 = [] ∧
    (monitorRun (monitorInit true) [Probe.exn, Probe.success]).2 = [] ∧
    (monitorRun (monitorInit true)
        [Probe.readFailed, Probe.readFailed, Probe.readFailed]).2 =
      [MonitorSignal.lost, MonitorSignal.lost] ∧
    (monitorRun (monitorInit true)
        [Probe.readFailed, Probe.readFailed, Probe.success]).2 =
      [MonitorSignal.lost, MonitorSignal.reconnected] := by
  decide

/-! ## Identification payload decoder
(`core/device_response_parser_fixed.py`)

`parse_specific_device_response` receives a hex string; stripping
whitespace and reading two-character chunks with `int(·, 16)` yields the
byte list modelled here.  Formatted values are kept numeric: the software
field's `value` string `f"V{major:02d}.{minor:02d}"` is represented by the
pair `(major, minor)` with `major = byte 8`, `minor = byte 9` (hardware
likewise from bytes 10–11); the "reversed hex" integers (magic,
ver-status, status, product id, CRC) are represented as the integer the
source computes.  Each optional field is `none` exactly when its guarding
length test fails in the source. -/

structure ParsedDeviceData where
  device_address : Nat
  function_code : Nat
  magic : Option Nat
  software : Option (Nat × Nat)
  hardware : Option (Nat × Nat)
  ver_status : Option Nat
  status : Option (List Nat)
  io_counts : Option (Nat × Nat × Nat × Nat)
  product_id : Option Nat
  crc : Option Nat
deriving DecidableEq

/-- `parse_specific_device_response`: `none` models the
`{"error": "Недостаточно данных…"}` early return for payloads shorter
than 32 bytes.  `io_counts` is `(DI, DO, AI, AO)` taken from bytes
20–23 in order; `status` keeps the byte-reversed status bytes 19…16. -/
def parse_specific_device_response (byte_list : List Nat) : Option ParsedDeviceData :=
  if byte_list.length < 32 then none
  else some {
    device_address := byte_list.getD 0 0
    function_code := byte_list.getD 1 0
    magic :=
      if 8 ≤ byte_list.length then
        some ((byte_list.getD 7 0 <<< 24) ||| (byte_list.getD 6 0 <<< 16) |||
              (byte_list.getD 5 0 <<< 8) ||| byte_list.getD 4 0)
      else none
    software :=
      if 10 ≤ byte_list.length then some (byte_list.getD 8 0, byte_list.getD 9 0)
      else none
    hardware :=
      if 12 ≤ byte_list.length then some (byte_list.getD 10 0, byte_list.getD 11 0)
      else none
    ver_status :=
      if 16 ≤ byte_list.length then
        some ((byte_list.getD 12 0 <<< 24) ||| (byte_list.getD 13 0 <<< 16) |||
              (byte_list.getD 14 0 <<< 8) ||| byte_list.getD 15 0)
      else none
    status :=
      if 20 ≤ byte_list.length then
        some [byte_list.getD 19 0, byte_list.getD 18 0, byte_list.getD 17 0,
              byte_list.getD 16 0]
      else none
    io_counts :=
      if 24 ≤ byte_list.length then
        some (byte_list.getD 20 0, byte_list.getD 21 0, byte_list.getD 22 0,
              byte_list.getD 23 0)
      else none
    product_id :=
      if 32 ≤ byte_list.length then
        some ((byte_list.getD 31 0 <<< 24) ||| (byte_list.getD 30 0 <<< 16) |||
              (byte_list.getD 29 0 <<< 8) ||| byte_list.getD 28 0)
      else none
    crc :=
      if 34 ≤ byte_list.length then
        some ((byte_list.getD (byte_list.length - 2) 0 <<< 8) |||
              byte_list.getD (byte_list.length - 1) 0)
      else none }

/-- The example identification payload from the spec and from
`device_response_parser_fixed.py::main`. -/
def examplePayload : List Nat :=
  [0x0F, 0x11, 0x0F, 0xFF, 0x99, 0x87, 0x41, 0x77, 0x07, 0x00, 0x01, 0x01,
   0x0F, 0x00, 0x00, 0x00, 0x2F, 0x48, 0x50, 0x4F, 0x00, 0x00, 0x20, 0x00,
   0x00, 0x00, 0x00, 0x00, 0xFB, 0x5F, 0x19, 0x63, 0x19, 0x62, 0xB1, 0xB2,
   0xEB, 0xD7]

/-- Claim C8 (code bug, evaluated at the example payload): the source's
own comments promise `07 00 → V00.07` and `00 00 20 00 → 0/32/0/0`, and
the spec repeats both, but the code formats the software version as
`V{byte8:02d}.{byte9:02d}` = `V07.00` (major 7, minor 0, not 0 and 7) and
assigns DI,DO,AI,AO = bytes 20,21,22,23 = 0,0,32,0 (the 32 lands on
analog-in, not digital-out).  The hardware version `V01.01` does match the
claim. -/
theorem parse_example_payload_fields :
    (parse_specific_device_response examplePayload).map (fun d => d.software) =
      some (some (7, 0)) ∧
    (parse_specific_device_response examplePayload).map (fun d => d.hardware) =
      some (some (1, 1)) ∧
    (parse_specific_device_response examplePayload).map (fun d => d.io_counts) =
      some (some (0, 0, 32, 0)) ∧
    ¬ (parse_specific_device_response examplePayload).map (fun d => d.software) =
        some (some (0, 7)) ∧
    ¬ (parse_specific_device_response examplePayload).map (fun d => d.io_counts) =
        some (some (0, 32, 0, 0)) := by
  decide

/-- Claim C9, counterexample: the first 24 bytes of the example payload
hold every fixed-offset field up to and including the I/O counts
(bytes 20–23), yet the decode fails outright with the
"Недостаточно данных" error because the parser demands 32 bytes before
decoding anything — the in-range fields are not decoded and the whole
decode fails, contradicting the claim. -/
theorem parse_short_payload_fails :
    parse_specific_device_response (examplePayload.take 24) = none ∧
    (examplePayload.take 24).length = 24 := by
  decide

/-- Claim C9 (amended): payloads shorter than 32 bytes fail the decode as
a whole; for payloads of at least 32 bytes every fixed-offset field
(magic, versions, ver-status, status, I/O counts, product id) is decoded,
and only the trailing CRC field is omitted — without failing the decode —
when the payload is shorter than 34 bytes. -/
theorem parse_field_presence (byte_list : List Nat) :
    (byte_list.length < 32 → parse_specific_device_response byte_list = none) ∧
    (32 ≤ byte_list.length →
      (parse_specific_device_response byte_list).map
          (fun d => (d.magic.isSome, d.software.isSome, d.hardware.isSome,
            d.ver_status.isSome, d.status.isSome, d.io_counts.isSome,
            d.product_id.isSome)) =
        some (true, true, true, true, true, true, true) ∧
      (parse_specific_device_response byte_list).map (fun d => d.crc.isSome) =
        some (decide (34 ≤ byte_list.length))) := by
  constructor
  · intro h
    simp [parse_specific_device_response, h]
  · intro h
    have h32 : ¬ byte_list.length < 32 := by omega
    have h8 : 8 ≤ byte_list.length := by omega
    have h10 : 10 ≤ byte_list.length := by omega
    have h12 : 12 ≤ byte_list.length := by omega
    have h16 : 16 ≤ byte_list.length := by omega
    have h20 : 20 ≤ byte_list.length := by omega
    have h24 : 24 ≤ byte_list.length := by omega
    constructor
    · simp [parse_specific_device_response, h32, h8, h10, h12, h16, h20, h24, h]
    · by_cases h34 : 34 ≤ byte_list.length
      · simp [parse_specific_device_response, h32, h34]
      · simp [parse_specific_device_response, h32, h34]

theorem parse_field_presence_witness :
    parse_specific_device_response (List.replicate 24 1) = none ∧
    (parse_specific_device_response (List.replicate 33 1)).map
        (fun d => (d.magic.isSome, d.software.isSome, d.hardware.isSome,
          d.ver_status.isSome, d.status.isSome, d.io_counts.isSome,
          d.product_id.isSome)) =
      some (true, true, true, true, true, true, true) ∧
    (parse_specific_device_response (List.replicate 33 1)).map (fun d => d.crc.isSome) =
      some (decide (34 ≤ (List.replicate 33 1).length)) := by
  refine ⟨?_, ?_, ?_⟩
  · exact (parse_field_presence (List.replicate 24 1)).1 (by decide)
  · exact ((parse_field_presence (List.replicate 33 1)).2 (by decide)).1
  · exact ((parse_field_presence (List.replicate 33 1)).2 (by decide)).2

end ModbusGui
